import Mathlib

/-!
Shallow embedding of `multibody/multibody_tree/multibody_tree_system.cc`
(class `MultibodyTreeSystem<T>`), the lifecycle-and-cache adapter that binds a
`MultibodyTree` model to the systems framework.  Throwing C++ code is embedded
as `Except String`; the scalar template parameter `T` is embedded as an
explicit `ScalarType` tag, since no numeric computation of the tree itself is
part of this translation unit.  External collaborators that are part of the
repository but not of the excerpt (the `MultibodyTree` model handle and the
systems framework ticket/cache machinery) are modelled from the spec, as
marked on each definition.
-/

namespace MbtSystem

/-- Scalar representations instantiated for this system: `double` and
`AutoDiffXd` (the two explicit conversion instantiations at the bottom of the
source file). -/
inductive ScalarType where
  | double
  | autodiff
deriving DecidableEq

/-- Modelled from the spec: the dependency-ticket classes of kinematic state
change exposed by the systems framework (`configuration_ticket()` and the
velocity component of `kinematics_ticket()`). -/
inductive Ticket where
  | configuration
  | velocity
deriving DecidableEq

/-- The ticket set `{this->configuration_ticket()}` used for the position
kinematics cache entry. -/
def configuration_ticket : List Ticket := [Ticket.configuration]

/-- Modelled from the spec: `kinematics_ticket()` is the union of the
configuration-change and velocity-change tickets. -/
def kinematics_ticket : List Ticket := [Ticket.configuration, Ticket.velocity]

/-- Modelled from the spec: the `MultibodyTree<T>` model handle, at its
interface. It owns the topology (abstracted to its validity flag and the
reported position/velocity counts) and a back pointer to the owning tree
system, set by `set_tree_system`. -/
structure MultibodyTree where
  scalar : ScalarType
  topology_is_valid : Bool
  num_positions : Nat
  num_velocities : Nat
  tree_system : Option Nat
deriving DecidableEq

/-- Modelled from the spec: `num_positions + num_velocities` equals
`num_states`; the sum is an invariant supplied by the model. -/
def MultibodyTree.num_states (t : MultibodyTree) : Nat :=
  t.num_positions + t.num_velocities

/-- Modelled from the spec: the default-constructed `MultibodyTree<T>()` is
empty and unfinalized. -/
def MultibodyTree.emptyTree (s : ScalarType) : MultibodyTree :=
  { scalar := s, topology_is_valid := false, num_positions := 0,
    num_velocities := 0, tree_system := none }

/-- Modelled from the spec: `MultibodyTree::Finalize()` freezes the topology;
the reported sizes are properties of the assembled topology and do not change. -/
def MultibodyTree.Finalize (t : MultibodyTree) : MultibodyTree :=
  { t with topology_is_valid := true }

/-- Modelled from the spec: `set_tree_system` records the back pointer from
the model to the controller (identified here by a numeric id). -/
def MultibodyTree.set_tree_system (t : MultibodyTree) (owner : Nat) :
    MultibodyTree :=
  { t with tree_system := some owner }

/-- Modelled from the spec: `CloneToScalar<T>()` performs a topology-preserving
value-type conversion of the model; the clone starts with no back pointer. -/
def MultibodyTree.CloneToScalar (t : MultibodyTree) (s : ScalarType) :
    MultibodyTree :=
  { scalar := s, topology_is_valid := t.topology_is_valid,
    num_positions := t.num_positions, num_velocities := t.num_velocities,
    tree_system := none }

/-- The state reservation made inside `Finalize()`: either
`DeclareDiscreteState(num_states)` or
`DeclareContinuousState(BasicVector(num_states), num_positions,
num_velocities, 0)`. -/
inductive StateShape where
  | discreteState (num_states : Nat)
  | continuousState (size num_q num_v num_z : Nat)
deriving DecidableEq

/-- A cache entry declaration as made by `DeclareCacheEntry`: its name and its
invalidation-ticket prerequisites. The allocator and calculator closures are
captured behaviorally by the modelled `KinematicsContext` below. -/
structure CacheEntryDecl where
  name : String
  prerequisites : List Ticket
deriving DecidableEq

/-- The position kinematics cache entry declared in `Finalize()`:
name "position kinematics", tickets `{configuration_ticket}`. -/
def positionKinematicsEntry : CacheEntryDecl :=
  { name := "position kinematics", prerequisites := configuration_ticket }

/-- The velocity kinematics cache entry declared in `Finalize()`:
name "velocity kinematics", tickets `{kinematics_ticket}`. -/
def velocityKinematicsEntry : CacheEntryDecl :=
  { name := "velocity kinematics", prerequisites := kinematics_ticket }

/-- `MultibodyTreeSystem<T>`: the lifecycle controller. `tree` is `none`
exactly when the C++ `tree_` unique pointer is null; `sys_id` stands for the
object identity (`this`) used for the back pointer. The declared state and
cache entries record what `Finalize()` registered with the framework. -/
structure MultibodyTreeSystem where
  sys_id : Nat
  scalar : ScalarType
  is_discrete : Bool
  tree : Option MultibodyTree
  already_finalized : Bool
  declared_state : Option StateShape
  cache_entries : List CacheEntryDecl
  position_kinematics_cache_index : Option Nat
  velocity_kinematics_cache_index : Option Nat
deriving DecidableEq

/-- Error text thrown by `Finalize()` on a repeated call. -/
def finalizeRepeatedError : String :=
  "MultibodyTreeSystem::Finalize(): repeated calls not allowed."

/-- Error text thrown by the one true constructor on a disallowed null tree. -/
def nullTreeError : String :=
  "MultibodyTreeSystem(): the supplied MultibodyTree was null."

/-- Error text thrown by `mutable_tree()` after the topology is valid. -/
def mutableTreeError : String :=
  "MultibodyTreeSystem::mutable_tree(): the contained MultibodyTree is finalized already."

/-- `MultibodyTreeSystem<T>::Finalize()`. Throws on a repeated call; otherwise
finalizes the tree topology if needed, declares the discrete or continuous
state, declares the two kinematics cache entries, records their indices, and
marks the instance finalized. Dereferencing a null `tree_` is embedded as an
error (it is unreachable from the constructors). -/
def MultibodyTreeSystem.Finalize (sys : MultibodyTreeSystem) :
    Except String MultibodyTreeSystem :=
  if sys.already_finalized then
    Except.error finalizeRepeatedError
  else
    match sys.tree with
    | none => Except.error "null dereference of tree_"
    | some t0 =>
      let t := if t0.topology_is_valid then t0 else t0.Finalize
      let shape :=
        if sys.is_discrete then
          StateShape.discreteState t.num_states
        else
          StateShape.continuousState t.num_states t.num_positions
            t.num_velocities 0
      Except.ok
        { sys with
          tree := some t,
          declared_state := some shape,
          cache_entries := [positionKinematicsEntry, velocityKinematicsEntry],
          position_kinematics_cache_index := some 0,
          velocity_kinematics_cache_index := some 1,
          already_finalized := true }

/-- The one true constructor
`MultibodyTreeSystem(converter, null_tree_is_ok, tree, is_discrete)`. A null
tree is either rejected or replaced by a fresh empty tree (left unfinalized);
a supplied tree gets its back pointer set and the system is finalized
immediately. -/
def MultibodyTreeSystem.construct (sys_id : Nat) (scalar : ScalarType)
    (null_tree_is_ok : Bool) (tree : Option MultibodyTree)
    (is_discrete : Bool) : Except String MultibodyTreeSystem :=
  let base : MultibodyTreeSystem :=
    { sys_id := sys_id, scalar := scalar, is_discrete := is_discrete,
      tree := none, already_finalized := false, declared_state := none,
      cache_entries := [], position_kinematics_cache_index := none,
      velocity_kinematics_cache_index := none }
  match tree with
  | none =>
    if null_tree_is_ok then
      Except.ok
        { base with
          tree := some ((MultibodyTree.emptyTree scalar).set_tree_system sys_id) }
    else
      Except.error nullTreeError
  | some t =>
    MultibodyTreeSystem.Finalize
      { base with tree := some (t.set_tree_system sys_id) }

/-- The scalar-converting constructor
`MultibodyTreeSystem<T>(const MultibodyTreeSystem<U>&)`: clones the tree with
`CloneToScalar<T>()` and delegates to the one true constructor with
`null_tree_is_ok = false` and the same discrete mode. -/
def MultibodyTreeSystem.convertScalar (sys_id : Nat) (target : ScalarType)
    (other : MultibodyTreeSystem) : Except String MultibodyTreeSystem :=
  match other.tree with
  | none => Except.error "null dereference of tree_"
  | some t =>
    MultibodyTreeSystem.construct sys_id target false
      (some (t.CloneToScalar target)) other.is_discrete

/-- `MultibodyTreeSystem<T>::mutable_tree()`: demands a non-null tree, throws
once the topology is valid, and otherwise hands out the mutable tree. -/
def MultibodyTreeSystem.mutable_tree (sys : MultibodyTreeSystem) :
    Except String MultibodyTree :=
  match sys.tree with
  | none => Except.error "DRAKE_DEMAND(tree_ != nullptr) failed"
  | some t =>
    if t.topology_is_valid then
      Except.error mutableTreeError
    else
      Except.ok t

/-- Boolean success test on an embedded throwing computation. -/
def exceptIsOk {α : Type} (e : Except String α) : Bool :=
  match e with
  | Except.ok _ => true
  | Except.error _ => false

/-- Modelled from the spec: the runtime context of a finalized system, with
the framework invalidation machinery realized as the epoch scheme of the
design notes: a global `clock` incremented on every state mutation, a
last-touched epoch per ticket, and a last-validated epoch per cache entry; an
entry is stale exactly when its validated epoch is behind the last-touched
epoch of one of its declared tickets.  The configuration sub-state `q` and
velocity sub-state `v` are abstract values; the stored position kinematics
value is represented by the configuration it was computed from
(`CalcPositionKinematicsCache` is pure in `q`), and the stored velocity
kinematics value by the pair of the position value consumed and the velocity
it was computed from.  The recompute counters observe how often each
calculator ran. -/
structure KinematicsContext where
  q : Nat
  v : Nat
  clock : Nat
  config_touched : Nat
  velocity_touched : Nat
  pos_validated : Nat
  vel_validated : Nat
  pos_value : Nat
  vel_value : Nat × Nat
  pos_recomputes : Nat
  vel_recomputes : Nat
deriving DecidableEq

/-- Modelled from the spec: the epoch at which a ticket was last touched. -/
def ticketTouched (c : KinematicsContext) : Ticket → Nat
  | Ticket.configuration => c.config_touched
  | Ticket.velocity => c.velocity_touched

/-- Modelled from the spec: the most recent touch epoch over a ticket set. -/
def ticketsTouched (c : KinematicsContext) (ts : List Ticket) : Nat :=
  List.foldr (fun t m => max (ticketTouched c t) m) 0 ts

/-- Modelled from the spec: staleness of an entry with validated epoch `e`
and prerequisite tickets `ts`. -/
def entryStale (c : KinematicsContext) (ts : List Ticket) (e : Nat) : Bool :=
  decide (e < ticketsTouched c ts)

/-- Staleness of the position kinematics entry, gated by the tickets it was
declared with (`configuration_ticket`). -/
def posStale (c : KinematicsContext) : Bool :=
  entryStale c positionKinematicsEntry.prerequisites c.pos_validated

/-- Staleness of the velocity kinematics entry, gated by the tickets it was
declared with (`kinematics_ticket`). -/
def velStale (c : KinematicsContext) : Bool :=
  entryStale c velocityKinematicsEntry.prerequisites c.vel_validated

/-- Modelled from the spec: a fresh context from the allocators; both entries
hold default values and start stale (every ticket touched at epoch 1, no
entry yet validated). -/
def initContext (q v : Nat) : KinematicsContext :=
  { q := q, v := v, clock := 1, config_touched := 1, velocity_touched := 1,
    pos_validated := 0, vel_validated := 0, pos_value := 0, vel_value := (0, 0),
    pos_recomputes := 0, vel_recomputes := 0 }

/-- Modelled from the spec: mutating the position sub-state advances the clock
and touches the configuration ticket. -/
def SetPositions (c : KinematicsContext) (qnew : Nat) : KinematicsContext :=
  { c with q := qnew, clock := c.clock + 1, config_touched := c.clock + 1 }

/-- Modelled from the spec: mutating the velocity sub-state advances the clock
and touches the velocity ticket. -/
def SetVelocities (c : KinematicsContext) (vnew : Nat) : KinematicsContext :=
  { c with v := vnew, clock := c.clock + 1, velocity_touched := c.clock + 1 }

/-- Pulling the position kinematics entry
(`tree->EvalPositionKinematics(context)`): if the entry is stale, its
calculator runs `CalcPositionKinematicsCache` on the current configuration and
the entry is revalidated at the current epoch; otherwise the memoized value is
returned untouched. -/
def EvalPositionKinematics (c : KinematicsContext) : KinematicsContext :=
  if posStale c then
    { c with pos_value := c.q, pos_validated := c.clock,
             pos_recomputes := c.pos_recomputes + 1 }
  else c

/-- Pulling the velocity kinematics entry: if the entry is stale, its
calculator runs; the calculator first pulls the position kinematics entry
(`tree->EvalPositionKinematics(context)`) and then runs
`CalcVelocityKinematicsCache` on the current state and that position value;
the entry is revalidated at the current epoch.  If the entry is fresh the
memoized value is returned and the calculator does not run. -/
def EvalVelocityKinematics (c : KinematicsContext) : KinematicsContext :=
  if velStale c then
    let c1 := EvalPositionKinematics c
    { c1 with vel_value := (c1.pos_value, c1.v), vel_validated := c1.clock,
              vel_recomputes := c1.vel_recomputes + 1 }
  else c

/-- A cache pull requested by an external evaluator. -/
inductive PullOp where
  | position
  | velocity
deriving DecidableEq

/-- Execute one pull. -/
def doPull (c : KinematicsContext) : PullOp → KinematicsContext
  | PullOp.position => EvalPositionKinematics c
  | PullOp.velocity => EvalVelocityKinematics c

/-- Execute a sequence of pulls (no state mutation in between). -/
def runPulls (c : KinematicsContext) : List PullOp → KinematicsContext
  | [] => c
  | p :: ps => runPulls (doPull c p) ps

/-- Well-formedness of a runtime context: touch and validation epochs never
run ahead of the clock, and a fresh (non-stale) position entry holds the
kinematics of the current configuration. -/
def ContextInv (c : KinematicsContext) : Prop :=
  c.config_touched ≤ c.clock ∧ c.velocity_touched ≤ c.clock ∧
  c.pos_validated ≤ c.clock ∧ c.vel_validated ≤ c.clock ∧
  (posStale c = false → c.pos_value = c.q)

instance (c : KinematicsContext) : Decidable (ContextInv c) := by
  unfold ContextInv
  infer_instance

/-- A concrete unfinalized tree with 4 positions and 3 velocities. -/
def sampleTree : MultibodyTree :=
  { scalar := ScalarType.double, topology_is_valid := false, num_positions := 4,
    num_velocities := 3, tree_system := none }

/-- A concrete continuous-mode system holding `sampleTree`, not yet finalized. -/
def sampleUnfinalized : MultibodyTreeSystem :=
  { sys_id := 0, scalar := ScalarType.double, is_discrete := false,
    tree := some sampleTree, already_finalized := false, declared_state := none,
    cache_entries := [], position_kinematics_cache_index := none,
    velocity_kinematics_cache_index := none }

/-- The result of finalizing `sampleUnfinalized`. -/
def sampleFinalized : MultibodyTreeSystem :=
  { sys_id := 0, scalar := ScalarType.double, is_discrete := false,
    tree := some { scalar := ScalarType.double, topology_is_valid := true,
                   num_positions := 4, num_velocities := 3, tree_system := none },
    already_finalized := true,
    declared_state := some (StateShape.continuousState 7 4 3 0),
    cache_entries := [positionKinematicsEntry, velocityKinematicsEntry],
    position_kinematics_cache_index := some 0,
    velocity_kinematics_cache_index := some 1 }

/-- A discrete-mode variant of `sampleUnfinalized`. -/
def sampleDiscrete : MultibodyTreeSystem :=
  { sampleUnfinalized with is_discrete := true }

/-- The result of finalizing `sampleDiscrete`. -/
def sampleDiscreteFinalized : MultibodyTreeSystem :=
  { sampleFinalized with
    is_discrete := true,
    declared_state := some (StateShape.discreteState 7) }

/-- The system produced by constructing with a null tree when null is allowed:
it owns a fresh empty tree with the back pointer set, and is not finalized. -/
def nullConstructedSample : MultibodyTreeSystem :=
  { sys_id := 0, scalar := ScalarType.double, is_discrete := false,
    tree := some { scalar := ScalarType.double, topology_is_valid := false,
                   num_positions := 0, num_velocities := 0, tree_system := some 0 },
    already_finalized := false, declared_state := none, cache_entries := [],
    position_kinematics_cache_index := none,
    velocity_kinematics_cache_index := none }

/-- The result of finalizing `nullConstructedSample` (the empty tree). -/
def nullFinalizedSample : MultibodyTreeSystem :=
  { nullConstructedSample with
    tree := some { scalar := ScalarType.double, topology_is_valid := true,
                   num_positions := 0, num_velocities := 0, tree_system := some 0 },
    already_finalized := true,
    declared_state := some (StateShape.continuousState 0 0 0 0),
    cache_entries := [positionKinematicsEntry, velocityKinematicsEntry],
    position_kinematics_cache_index := some 0,
    velocity_kinematics_cache_index := some 1 }

/-- The finalized system produced by constructing with `sampleTree` supplied
(back pointer set to id 0). -/
def sampleConverted : MultibodyTreeSystem :=
  { sys_id := 0, scalar := ScalarType.double, is_discrete := false,
    tree := some { scalar := ScalarType.double, topology_is_valid := true,
                   num_positions := 4, num_velocities := 3,
                   tree_system := some 0 },
    already_finalized := true,
    declared_state := some (StateShape.continuousState 7 4 3 0),
    cache_entries := [positionKinematicsEntry, velocityKinematicsEntry],
    position_kinematics_cache_index := some 0,
    velocity_kinematics_cache_index := some 1 }

/-- The result of scalar-converting `sampleConverted` to autodiff under id 1. -/
def sampleConvertedClone : MultibodyTreeSystem :=
  { sampleConverted with
    sys_id := 1,
    scalar := ScalarType.autodiff,
    tree := some { scalar := ScalarType.autodiff, topology_is_valid := true,
                   num_positions := 4, num_velocities := 3,
                   tree_system := some 1 } }

/-- A concrete runtime context whose position entry is fresh (it equals
`EvalPositionKinematics (initContext 5 9)`). -/
def freshPosContext : KinematicsContext :=
  { q := 5, v := 9, clock := 1, config_touched := 1, velocity_touched := 1,
    pos_validated := 1, vel_validated := 0, pos_value := 5, vel_value := (0, 0),
    pos_recomputes := 1, vel_recomputes := 0 }

/-- Inversion of a successful `Finalize()` call: it requires the instance not
to be finalized yet, and establishes the finalized flag, the preserved
identity and mode, the two cache entries with their indices, the finalized
tree and the declared state shape. -/
theorem Finalize_ok_inv {sys sys' : MultibodyTreeSystem}
    (h : sys.Finalize = Except.ok sys') :
    sys.already_finalized = false ∧
    sys'.already_finalized = true ∧
    sys'.sys_id = sys.sys_id ∧
    sys'.scalar = sys.scalar ∧
    sys'.is_discrete = sys.is_discrete ∧
    sys'.cache_entries = [positionKinematicsEntry, velocityKinematicsEntry] ∧
    sys'.position_kinematics_cache_index = some 0 ∧
    sys'.velocity_kinematics_cache_index = some 1 ∧
    ∃ t0, sys.tree = some t0 ∧
      sys'.tree = some { t0 with topology_is_valid := true } ∧
      sys'.declared_state = some (if sys.is_discrete then
          StateShape.discreteState t0.num_states
        else
          StateShape.continuousState t0.num_states t0.num_positions
            t0.num_velocities 0) := by
  unfold MultibodyTreeSystem.Finalize at h
  by_cases hf : sys.already_finalized = true
  · simp [hf] at h
  · rw [Bool.not_eq_true] at hf
    rw [hf] at h
    simp only [Bool.false_eq_true, if_false] at h
    cases htr : sys.tree with
    | none => rw [htr] at h; simp at h
    | some t0 =>
      rw [htr] at h
      simp only [Except.ok.injEq] at h
      subst h
      obtain ⟨tsc, tval, tnp, tnv, tbs⟩ := t0
      cases tval <;>
        simp [hf, MultibodyTree.Finalize, MultibodyTree.num_states]

/-- Inversion of a successful run of the one true constructor on a supplied
(non-null) tree: the result is the fully finalized system, explicitly. -/
theorem construct_some_ok {a : Nat} {sc : ScalarType} {ok0 : Bool}
    {t0 : MultibodyTree} {d : Bool} {sys : MultibodyTreeSystem}
    (h : MultibodyTreeSystem.construct a sc ok0 (some t0) d = Except.ok sys) :
    sys = { sys_id := a, scalar := sc, is_discrete := d,
            tree := some { scalar := t0.scalar, topology_is_valid := true,
                           num_positions := t0.num_positions,
                           num_velocities := t0.num_velocities,
                           tree_system := some a },
            already_finalized := true,
            declared_state := some (if d then
                StateShape.discreteState t0.num_states
              else
                StateShape.continuousState t0.num_states t0.num_positions
                  t0.num_velocities 0),
            cache_entries := [positionKinematicsEntry, velocityKinematicsEntry],
            position_kinematics_cache_index := some 0,
            velocity_kinematics_cache_index := some 1 } := by
  unfold MultibodyTreeSystem.construct MultibodyTreeSystem.Finalize at h
  obtain ⟨tsc, tval, tnp, tnv, tbs⟩ := t0
  cases tval <;>
    simp [MultibodyTree.set_tree_system, MultibodyTree.Finalize,
      MultibodyTree.num_states] at h <;>
    exact h.symm

/-- Inversion of a successful run of the one true constructor, in any mode:
the resulting system carries the requested id and owns a tree whose back
pointer is that id. -/
theorem construct_ok_backptr {a : Nat} {sc : ScalarType} {ok0 : Bool}
    {tr : Option MultibodyTree} {d : Bool} {sys : MultibodyTreeSystem}
    (h : MultibodyTreeSystem.construct a sc ok0 tr d = Except.ok sys) :
    sys.sys_id = a ∧
    Option.map MultibodyTree.tree_system sys.tree = some (some a) := by
  cases tr with
  | none =>
    unfold MultibodyTreeSystem.construct at h
    by_cases hok : ok0 = true
    · rw [hok] at h
      simp only [if_true] at h
      simp only [Except.ok.injEq] at h
      subst h
      simp [MultibodyTree.set_tree_system, MultibodyTree.emptyTree]
    · rw [Bool.not_eq_true] at hok
      rw [hok] at h
      simp at h
  | some t0 =>
    have hs := construct_some_ok h
    subst hs
    simp

/-- Claim C1: once `Finalize()` has succeeded on an instance, the instance is
marked terminal and a second call to `Finalize()` on it throws the
repeated-call logic error instead of redeclaring state or caches. -/
theorem finalize_second_call_throws (sys sys' : MultibodyTreeSystem)
    (h : sys.Finalize = Except.ok sys') :
    sys'.Finalize = Except.error finalizeRepeatedError := by
  have hfin : sys'.already_finalized = true := (Finalize_ok_inv h).2.1
  unfold MultibodyTreeSystem.Finalize
  rw [hfin]
  simp

/-- Witness for C1 at a concrete system. -/
theorem finalize_second_call_throws_witness :
    sampleUnfinalized.Finalize = Except.ok sampleFinalized ∧
    sampleFinalized.Finalize = Except.error finalizeRepeatedError :=
  ⟨by rfl, finalize_second_call_throws sampleUnfinalized sampleFinalized (by rfl)⟩

/-- Claim C9: constructing with a null tree when null is disallowed throws the
null-tree logic error; no system object is produced, so no tree is taken
over, no state is declared and no cache entries are installed. -/
theorem construct_null_disallowed_throws (a : Nat) (sc : ScalarType)
    (d : Bool) :
    MultibodyTreeSystem.construct a sc false none d =
      Except.error nullTreeError := by
  rfl

/-- Counterexample to claim C4 as stated: constructing with a null tree when
null is allowed succeeds, and the first call to `Finalize()` on the result
also succeeds (finalizing the fresh empty tree) rather than failing for want
of a model. -/
theorem null_allowed_finalize_succeeds_cex :
    MultibodyTreeSystem.construct 0 ScalarType.double true none false =
      Except.ok nullConstructedSample ∧
    nullConstructedSample.Finalize = Except.ok nullFinalizedSample :=
  ⟨by rfl, by rfl⟩

/-- Claim C4 (amended): constructing with a null tree when null is allowed
installs a fresh empty unfinalized tree with the back pointer set, leaves the
instance unfinalized, and the first `Finalize()` call succeeds (there is no
check for an absent model, and the tree pointer is never null). -/
theorem null_allowed_construct_defers (a : Nat) (sc : ScalarType) (d : Bool)
    (sys0 : MultibodyTreeSystem)
    (h : MultibodyTreeSystem.construct a sc true none d = Except.ok sys0) :
    sys0.already_finalized = false ∧
    sys0.tree = some ((MultibodyTree.emptyTree sc).set_tree_system a) ∧
    sys0.declared_state = none ∧
    sys0.cache_entries = [] ∧
    exceptIsOk sys0.Finalize = true := by
  unfold MultibodyTreeSystem.construct at h
  simp only [if_true, Except.ok.injEq] at h
  subst h
  refine ⟨rfl, rfl, rfl, rfl, ?_⟩
  rfl

/-- Witness for the amended C4 at a concrete system. -/
theorem null_allowed_construct_defers_witness :
    MultibodyTreeSystem.construct 0 ScalarType.double true none false =
      Except.ok nullConstructedSample ∧
    (nullConstructedSample.already_finalized = false ∧
     nullConstructedSample.tree =
       some ((MultibodyTree.emptyTree ScalarType.double).set_tree_system 0) ∧
     nullConstructedSample.declared_state = none ∧
     nullConstructedSample.cache_entries = [] ∧
     exceptIsOk nullConstructedSample.Finalize = true) :=
  ⟨by rfl,
   null_allowed_construct_defers 0 ScalarType.double false
     nullConstructedSample (by rfl)⟩

/-- Claim C5: `mutable_tree()` throws the finalized-already logic error
exactly when the topology of the contained tree is valid, and otherwise
returns the mutable tree; in particular it throws on the result of any
successful `Finalize()`. -/
theorem mutable_tree_guard (sys sys2 sysF : MultibodyTreeSystem)
    (t : MultibodyTree) (h : sys.tree = some t)
    (h2 : sys2.Finalize = Except.ok sysF) :
    sys.mutable_tree = (if t.topology_is_valid then
        Except.error mutableTreeError
      else
        Except.ok t) ∧
    sysF.mutable_tree = Except.error mutableTreeError := by
  constructor
  · unfold MultibodyTreeSystem.mutable_tree
    rw [h]
  · obtain ⟨-, -, -, -, -, -, -, -, t0, -, htree, -⟩ := Finalize_ok_inv h2
    unfold MultibodyTreeSystem.mutable_tree
    rw [htree]
    simp

/-- Witness for C5 at concrete systems: an unfinalized system hands out its
tree, a finalized one throws. -/
theorem mutable_tree_guard_witness :
    sampleUnfinalized.tree = some sampleTree ∧
    sampleUnfinalized.Finalize = Except.ok sampleFinalized ∧
    (sampleUnfinalized.mutable_tree = (if sampleTree.topology_is_valid then
        Except.error mutableTreeError
      else
        Except.ok sampleTree) ∧
     sampleFinalized.mutable_tree = Except.error mutableTreeError) :=
  ⟨by rfl, by rfl,
   mutable_tree_guard sampleUnfinalized sampleUnfinalized sampleFinalized
     sampleTree (by rfl) (by rfl)⟩

/-- Claim C6: a successful `Finalize()` declares, in discrete mode, one
discrete vector of length `num_states`, and in continuous mode a continuous
state of size `num_states` partitioned into `num_positions` positions,
`num_velocities` velocities and zero miscellaneous slots. -/
theorem finalize_declared_state_shape (sys sys' : MultibodyTreeSystem)
    (t0 : MultibodyTree) (h : sys.tree = some t0)
    (hf : sys.Finalize = Except.ok sys') :
    sys'.declared_state = some (if sys.is_discrete then
        StateShape.discreteState t0.num_states
      else
        StateShape.continuousState t0.num_states t0.num_positions
          t0.num_velocities 0) := by
  obtain ⟨-, -, -, -, -, -, -, -, t1, htree, -, hds⟩ := Finalize_ok_inv hf
  rw [h] at htree
  cases htree
  exact hds

/-- Witness for C6 at the two scenario instances: discrete mode with
`num_states = 7` yields one length-7 vector; continuous mode with 4 positions
and 3 velocities yields the 7 = 4 + 3 partition. -/
theorem finalize_declared_state_shape_witness :
    sampleDiscrete.tree = some sampleTree ∧
    sampleDiscrete.Finalize = Except.ok sampleDiscreteFinalized ∧
    sampleDiscreteFinalized.declared_state =
      some (StateShape.discreteState 7) ∧
    sampleUnfinalized.tree = some sampleTree ∧
    sampleUnfinalized.Finalize = Except.ok sampleFinalized ∧
    sampleFinalized.declared_state =
      some (StateShape.continuousState 7 4 3 0) := by
  refine ⟨by rfl, by rfl, ?_, by rfl, by rfl, ?_⟩
  · have hd := finalize_declared_state_shape sampleDiscrete
      sampleDiscreteFinalized sampleTree (by rfl) (by rfl)
    simpa [sampleDiscrete, sampleUnfinalized, sampleTree,
      MultibodyTree.num_states] using hd
  · have hc := finalize_declared_state_shape sampleUnfinalized
      sampleFinalized sampleTree (by rfl) (by rfl)
    simpa [sampleUnfinalized, sampleTree, MultibodyTree.num_states] using hc

/-- The position entry is stale exactly when its validated epoch is behind
the configuration-ticket touch epoch. -/
theorem posStale_lt (c : KinematicsContext) :
    posStale c = true ↔ c.pos_validated < c.config_touched := by
  simp [posStale, entryStale, positionKinematicsEntry, configuration_ticket,
    ticketsTouched, ticketTouched]

/-- The position entry is fresh exactly when its validated epoch has caught
up with the configuration-ticket touch epoch. -/
theorem posStale_ge (c : KinematicsContext) :
    posStale c = false ↔ c.config_touched ≤ c.pos_validated := by
  rw [← Bool.not_eq_true, posStale_lt, Nat.not_lt]

/-- The velocity entry is stale exactly when its validated epoch is behind
the touch epoch of either kinematics ticket. -/
theorem velStale_lt (c : KinematicsContext) :
    velStale c = true ↔
      c.vel_validated < max c.config_touched c.velocity_touched := by
  simp [velStale, entryStale, velocityKinematicsEntry, kinematics_ticket,
    ticketsTouched, ticketTouched]

/-- The velocity entry is fresh exactly when its validated epoch has caught
up with both kinematics tickets. -/
theorem velStale_ge (c : KinematicsContext) :
    velStale c = false ↔
      max c.config_touched c.velocity_touched ≤ c.vel_validated := by
  rw [← Bool.not_eq_true, velStale_lt, Nat.not_lt]

/-- Pulling a fresh entry is the identity: no recompute, no state change. -/
theorem doPull_fresh (c : KinematicsContext) (p : PullOp)
    (hp : posStale c = false) (hv : velStale c = false) :
    doPull c p = c := by
  cases p with
  | position => simp [doPull, EvalPositionKinematics, hp]
  | velocity => simp [doPull, EvalVelocityKinematics, hv]

/-- A pull sequence on a context whose entries are both fresh is the
identity. -/
theorem runPulls_fresh (c : KinematicsContext) (ps : List PullOp)
    (hp : posStale c = false) (hv : velStale c = false) :
    runPulls c ps = c := by
  induction ps with
  | nil => rfl
  | cons p ps ih =>
    rw [runPulls, doPull_fresh c p hp hv]
    exact ih

/-- Pulling the position entry never changes the state, the clock, the ticket
epochs or the velocity entry, and leaves a fresh, current position value. -/
theorem evalPos_fields (c : KinematicsContext) (hInv : ContextInv c) :
    (EvalPositionKinematics c).q = c.q ∧
    (EvalPositionKinematics c).v = c.v ∧
    (EvalPositionKinematics c).clock = c.clock ∧
    (EvalPositionKinematics c).config_touched = c.config_touched ∧
    (EvalPositionKinematics c).velocity_touched = c.velocity_touched ∧
    (EvalPositionKinematics c).vel_validated = c.vel_validated ∧
    (EvalPositionKinematics c).vel_recomputes = c.vel_recomputes ∧
    (EvalPositionKinematics c).vel_value = c.vel_value ∧
    posStale (EvalPositionKinematics c) = false ∧
    (EvalPositionKinematics c).pos_value = c.q := by
  obtain ⟨h1, h2, h3, h4, h5⟩ := hInv
  by_cases hs : posStale c = true
  · have hfr : posStale
        { c with
          pos_value := c.q,
          pos_validated := c.clock,
          pos_recomputes := c.pos_recomputes + 1 } = false := by
      rw [posStale_ge]
      exact h1
    simp [EvalPositionKinematics, hs, hfr]
  · rw [Bool.not_eq_true] at hs
    simp [EvalPositionKinematics, hs, h5 hs]

/-- Claim C2: whenever the velocity-kinematics calculator runs (the entry is
stale at the pull), it first brings the position entry up to date — the
position pull leaves a fresh position value equal to the kinematics of the
current configuration — and then computes the velocity value from exactly
that position value and the current velocity sub-state. -/
theorem velocity_calc_uses_fresh_position (c : KinematicsContext)
    (hInv : ContextInv c) (hrun : velStale c = true) :
    posStale (EvalPositionKinematics c) = false ∧
    (EvalPositionKinematics c).pos_value = c.q ∧
    EvalVelocityKinematics c =
      { EvalPositionKinematics c with
        vel_value := (c.q, c.v),
        vel_validated := c.clock,
        vel_recomputes := c.vel_recomputes + 1 } := by
  obtain ⟨hq, hv, hclk, hct, hvt, hvv, hvr, hvval, hfresh, hcur⟩ :=
    evalPos_fields c hInv
  refine ⟨hfresh, hcur, ?_⟩
  unfold EvalVelocityKinematics
  simp [hrun, hcur, hv, hclk, hvr]

/-- Witness for C2 at a fresh concrete context (both entries initially
stale). -/
theorem velocity_calc_uses_fresh_position_witness :
    ContextInv (initContext 5 9) ∧ velStale (initContext 5 9) = true ∧
    (posStale (EvalPositionKinematics (initContext 5 9)) = false ∧
     (EvalPositionKinematics (initContext 5 9)).pos_value =
       (initContext 5 9).q ∧
     EvalVelocityKinematics (initContext 5 9) =
       { EvalPositionKinematics (initContext 5 9) with
         vel_value := ((initContext 5 9).q, (initContext 5 9).v),
         vel_validated := (initContext 5 9).clock,
         vel_recomputes := (initContext 5 9).vel_recomputes + 1 }) :=
  ⟨by decide, by decide,
   velocity_calc_uses_fresh_position (initContext 5 9) (by decide) (by decide)⟩

/-- Claim C3: after a configuration-only mutation, one pull of the velocity
entry recomputes the position and velocity entries exactly once each, and any
further sequence of pulls before the next mutation leaves the context — in
particular both recompute counters — entirely unchanged. -/
theorem memoization_after_configuration_change (c : KinematicsContext)
    (hInv : ContextInv c) (qnew : Nat) (ps : List PullOp) :
    (EvalVelocityKinematics (SetPositions c qnew)).pos_recomputes
        = c.pos_recomputes + 1 ∧
    (EvalVelocityKinematics (SetPositions c qnew)).vel_recomputes
        = c.vel_recomputes + 1 ∧
    runPulls (EvalVelocityKinematics (SetPositions c qnew)) ps
        = EvalVelocityKinematics (SetPositions c qnew) := by
  obtain ⟨h1, h2, h3, h4, h5⟩ := hInv
  have hps : posStale (SetPositions c qnew) = true := by
    rw [posStale_lt]
    simp only [SetPositions]
    omega
  have hvs : velStale (SetPositions c qnew) = true := by
    rw [velStale_lt]
    simp only [SetPositions]
    exact Nat.lt_of_lt_of_le (Nat.lt_succ_of_le h4) (le_max_left _ _)
  have hpe : EvalPositionKinematics (SetPositions c qnew) =
      { c with
        q := qnew,
        clock := c.clock + 1,
        config_touched := c.clock + 1,
        pos_value := qnew,
        pos_validated := c.clock + 1,
        pos_recomputes := c.pos_recomputes + 1 } := by
    unfold EvalPositionKinematics
    rw [if_pos hps]
    simp [SetPositions]
  have hve : EvalVelocityKinematics (SetPositions c qnew) =
      { c with
        q := qnew,
        clock := c.clock + 1,
        config_touched := c.clock + 1,
        pos_value := qnew,
        pos_validated := c.clock + 1,
        pos_recomputes := c.pos_recomputes + 1,
        vel_value := (qnew, c.v),
        vel_validated := c.clock + 1,
        vel_recomputes := c.vel_recomputes + 1 } := by
    unfold EvalVelocityKinematics
    rw [if_pos hvs, hpe]
  rw [hve]
  refine ⟨rfl, rfl, ?_⟩
  apply runPulls_fresh
  · rw [posStale_ge]
  · rw [velStale_ge]
    exact max_le (Nat.le_refl _) (Nat.le_succ_of_le h2)

/-- Witness for C3 at a fresh concrete context, with three further pulls. -/
theorem memoization_after_configuration_change_witness :
    ContextInv (initContext 5 9) ∧
    ((EvalVelocityKinematics (SetPositions (initContext 5 9) 3)).pos_recomputes
        = (initContext 5 9).pos_recomputes + 1 ∧
     (EvalVelocityKinematics (SetPositions (initContext 5 9) 3)).vel_recomputes
        = (initContext 5 9).vel_recomputes + 1 ∧
     runPulls (EvalVelocityKinematics (SetPositions (initContext 5 9) 3))
         [PullOp.velocity, PullOp.position, PullOp.velocity]
        = EvalVelocityKinematics (SetPositions (initContext 5 9) 3)) :=
  ⟨by decide,
   memoization_after_configuration_change (initContext 5 9) (by decide) 3
     [PullOp.velocity, PullOp.position, PullOp.velocity]⟩

/-- Claim C7: `Finalize()` declares the position kinematics entry with ticket
set exactly the configuration ticket and the velocity kinematics entry with
the union of the configuration and velocity tickets; consequently a
velocity-only mutation leaves a fresh position entry valid (the next position
pull is a no-op) while making the velocity entry stale (the next velocity
pull recomputes it), and a position mutation marks both entries stale. -/
theorem ticket_sets_and_selective_invalidation
    (sys sys' : MultibodyTreeSystem) (c : KinematicsContext)
    (vnew qnew : Nat) (hf : sys.Finalize = Except.ok sys')
    (hInv : ContextInv c) (hfresh : posStale c = false) :
    sys'.cache_entries =
      [{ name := "position kinematics",
         prerequisites := [Ticket.configuration] },
       { name := "velocity kinematics",
         prerequisites := [Ticket.configuration, Ticket.velocity] }] ∧
    posStale (SetVelocities c vnew) = false ∧
    EvalPositionKinematics (SetVelocities c vnew) = SetVelocities c vnew ∧
    velStale (SetVelocities c vnew) = true ∧
    (EvalVelocityKinematics (SetVelocities c vnew)).vel_recomputes
        = c.vel_recomputes + 1 ∧
    posStale (SetPositions c qnew) = true ∧
    velStale (SetPositions c qnew) = true := by
  obtain ⟨h1, h2, h3, h4, h5⟩ := hInv
  have hentries := (Finalize_ok_inv hf).2.2.2.2.2.1
  have hvfresh : posStale (SetVelocities c vnew) = false := by
    rw [posStale_ge]
    simp only [SetVelocities]
    exact (posStale_ge c).mp hfresh
  have hpid : EvalPositionKinematics (SetVelocities c vnew) =
      SetVelocities c vnew := by
    unfold EvalPositionKinematics
    rw [hvfresh]
    simp
  have hvstale : velStale (SetVelocities c vnew) = true := by
    rw [velStale_lt]
    simp only [SetVelocities]
    exact Nat.lt_of_lt_of_le (Nat.lt_succ_of_le h4) (le_max_right _ _)
  have hvrec : (EvalVelocityKinematics (SetVelocities c vnew)).vel_recomputes
      = c.vel_recomputes + 1 := by
    unfold EvalVelocityKinematics
    rw [if_pos hvstale, hpid]
    simp [SetVelocities]
  have hpstale : posStale (SetPositions c qnew) = true := by
    rw [posStale_lt]
    simp only [SetPositions]
    omega
  have hvstale2 : velStale (SetPositions c qnew) = true := by
    rw [velStale_lt]
    simp only [SetPositions]
    exact Nat.lt_of_lt_of_le (Nat.lt_succ_of_le h4) (le_max_left _ _)
  refine ⟨?_, hvfresh, hpid, hvstale, hvrec, hpstale, hvstale2⟩
  rw [hentries]
  rfl

/-- Witness for C7 at concrete inputs: the finalized sample system, and a
context whose position entry is fresh. -/
theorem ticket_sets_and_selective_invalidation_witness :
    sampleUnfinalized.Finalize = Except.ok sampleFinalized ∧
    ContextInv freshPosContext ∧ posStale freshPosContext = false ∧
    (sampleFinalized.cache_entries =
      [{ name := "position kinematics",
         prerequisites := [Ticket.configuration] },
       { name := "velocity kinematics",
         prerequisites := [Ticket.configuration, Ticket.velocity] }] ∧
     posStale (SetVelocities freshPosContext 4) = false ∧
     EvalPositionKinematics (SetVelocities freshPosContext 4) =
       SetVelocities freshPosContext 4 ∧
     velStale (SetVelocities freshPosContext 4) = true ∧
     (EvalVelocityKinematics (SetVelocities freshPosContext 4)).vel_recomputes
        = freshPosContext.vel_recomputes + 1 ∧
     posStale (SetPositions freshPosContext 6) = true ∧
     velStale (SetPositions freshPosContext 6) = true) :=
  ⟨by rfl, by decide, by decide,
   ticket_sets_and_selective_invalidation sampleUnfinalized sampleFinalized
     freshPosContext 4 6 (by rfl) (by decide) (by decide)⟩

/-- Claim C8: converting a finalized source instance (built over scalar `U`
by the one true constructor) to scalar `T` succeeds and yields a finalized
instance over `T` with the same discrete mode, a topology-preserving tree
clone with identical `num_positions`/`num_velocities` (hence `num_states`),
the same declared state shape and the same cache entries and indices as the
source; only the scalar tag and the object identity differ. -/
theorem scalar_conversion_preserves_structure (idT : Nat) (T : ScalarType)
    (src0 other : MultibodyTreeSystem) (t0 : MultibodyTree)
    (htree0 : src0.tree = some t0)
    (hother : src0.Finalize = Except.ok other) :
    MultibodyTreeSystem.convertScalar idT T other = Except.ok
      { sys_id := idT, scalar := T, is_discrete := other.is_discrete,
        tree := some { scalar := T, topology_is_valid := true,
                       num_positions := t0.num_positions,
                       num_velocities := t0.num_velocities,
                       tree_system := some idT },
        already_finalized := true,
        declared_state := other.declared_state,
        cache_entries := other.cache_entries,
        position_kinematics_cache_index :=
          other.position_kinematics_cache_index,
        velocity_kinematics_cache_index :=
          other.velocity_kinematics_cache_index } := by
  obtain ⟨hnf, hfin, hid, hsc, hdisc, hce, hp0, hv1, t1, htree1, htree, hds⟩ :=
    Finalize_ok_inv hother
  rw [htree0] at htree1
  cases htree1
  unfold MultibodyTreeSystem.convertScalar
  rw [htree]
  unfold MultibodyTreeSystem.construct MultibodyTreeSystem.Finalize
  rw [hds, hdisc, hce, hp0, hv1]
  simp [MultibodyTree.CloneToScalar, MultibodyTree.set_tree_system,
    MultibodyTree.Finalize, MultibodyTree.num_states]

/-- Witness for C8 at a concrete source system: double to autodiff. -/
theorem scalar_conversion_preserves_structure_witness :
    sampleUnfinalized.tree = some sampleTree ∧
    sampleUnfinalized.Finalize = Except.ok sampleFinalized ∧
    MultibodyTreeSystem.convertScalar 1 ScalarType.autodiff sampleFinalized =
      Except.ok
      { sys_id := 1, scalar := ScalarType.autodiff,
        is_discrete := sampleFinalized.is_discrete,
        tree := some { scalar := ScalarType.autodiff,
                       topology_is_valid := true,
                       num_positions := sampleTree.num_positions,
                       num_velocities := sampleTree.num_velocities,
                       tree_system := some 1 },
        already_finalized := true,
        declared_state := sampleFinalized.declared_state,
        cache_entries := sampleFinalized.cache_entries,
        position_kinematics_cache_index :=
          sampleFinalized.position_kinematics_cache_index,
        velocity_kinematics_cache_index :=
          sampleFinalized.velocity_kinematics_cache_index } :=
  ⟨by rfl, by rfl,
   scalar_conversion_preserves_structure 1 ScalarType.autodiff
     sampleUnfinalized sampleFinalized sampleTree (by rfl) (by rfl)⟩

/-- Claim C10: whenever a constructor completes without throwing — the one
true constructor in any mode, or the scalar-converting constructor — the
resulting system owns a tree (the pointer is not null) whose back pointer is
set to the identity of that system. -/
theorem constructed_tree_nonnull_backptr (a : Nat) (sc : ScalarType)
    (ok0 : Bool) (tr : Option MultibodyTree) (d : Bool) (b : Nat)
    (T : ScalarType) (sys other sys2 : MultibodyTreeSystem)
    (h1 : MultibodyTreeSystem.construct a sc ok0 tr d = Except.ok sys)
    (h2 : MultibodyTreeSystem.convertScalar b T other = Except.ok sys2) :
    sys.sys_id = a ∧
    Option.map MultibodyTree.tree_system sys.tree = some (some sys.sys_id) ∧
    sys2.sys_id = b ∧
    Option.map MultibodyTree.tree_system sys2.tree =
      some (some sys2.sys_id) := by
  obtain ⟨hida, hmapa⟩ := construct_ok_backptr h1
  have h2' := h2
  unfold MultibodyTreeSystem.convertScalar at h2'
  cases htr : other.tree with
  | none => rw [htr] at h2'; simp at h2'
  | some t =>
    rw [htr] at h2'
    obtain ⟨hidb, hmapb⟩ := construct_ok_backptr h2'
    exact ⟨hida, by rw [hida]; exact hmapa, hidb, by rw [hidb]; exact hmapb⟩

/-- Witness for C10 at concrete constructions: a deferred (null-allowed)
construction and a scalar conversion of a finalized source. -/
theorem constructed_tree_nonnull_backptr_witness :
    MultibodyTreeSystem.construct 0 ScalarType.double true none false =
      Except.ok nullConstructedSample ∧
    MultibodyTreeSystem.convertScalar 1 ScalarType.autodiff sampleConverted =
      Except.ok sampleConvertedClone ∧
    (nullConstructedSample.sys_id = 0 ∧
     Option.map MultibodyTree.tree_system nullConstructedSample.tree =
       some (some nullConstructedSample.sys_id) ∧
     sampleConvertedClone.sys_id = 1 ∧
     Option.map MultibodyTree.tree_system sampleConvertedClone.tree =
       some (some sampleConvertedClone.sys_id)) :=
  ⟨by rfl, by rfl,
   constructed_tree_nonnull_backptr 0 ScalarType.double true none false 1
     ScalarType.autodiff nullConstructedSample sampleConverted
     sampleConvertedClone (by rfl) (by rfl)⟩

end MbtSystem
